import Mathlib

/-!
Verification of plex-rclone-manager (src/prm/config.py and src/prm/cli.py)
against its natural-language specification.

The embedding below is a shallow translation of the two source files:

- Pure string plumbing (Python f-string templates fed through
  `process_multiline`, i.e. `textwrap.dedent(text).strip() + '\n'`) is
  embedded as the already-rendered string each template evaluates to; the
  rendering (removal of the common 12/16-space margin, of `\<newline>`
  line continuations inside f-strings, and of the surrounding blank edges)
  was carried out by hand from the exact bytes of cli.py and is noted at
  each definition.
- `Config` (config.py) is modelled post-load: `_cached_config` is the file
  layer as a map from `ConfigKey` to optional string (the Python dict is
  keyed by `key.name.lower()`, which is in bijection with the enum), and
  `_overriden` is the override layer. The lazy `_load` is modelled by
  `Config.load`, which installs a decoded file mapping and runs `_clean`,
  exactly as config.py lines 52-74 do after decoding.
- `str(Path(v).expanduser())` (config.py line 50) reads the environment
  (home directory) and applies OS path normalisation, so it is passed in
  as an opaque parameter `norm : String → String`.
- Fallible Python code (raise ValueError / click.Abort) returns
  `Except PrmError`.
- The external command runner (`execute`, cli.py lines 49-56) is modelled
  as a trace: a command handler returns the list of command strings it
  hands to `execute`.
- The directory tree scanned by `preview-thumbnails` is modelled as data:
  a list of first-level entries, each with its `is_dir()` flag and its
  second-level entries, each with its name and whether
  `Contents/Indexes/index-sd.bif` exists inside it.
- The percent text `round(missing*100/total, 2)` is a floating-point
  rendering; scanner outputs are therefore modelled as structured values
  carrying the integer counters, which is all the claims quantify over.
-/

namespace PRM

set_option maxRecDepth 100000

/-! ### Generic list/string helpers (Python-like primitives) -/

/-- Character-list prefix test: `leadMatch p s = true` iff `p` is a prefix of `s`. -/
def leadMatch : List Char → List Char → Bool
  | [], _ => true
  | _ :: _, [] => false
  | c :: p, d :: s => c == d && leadMatch p s

/-- Remainder of `s` after the first occurrence of `p`, if `p` occurs in `s`. -/
def dropThrough (p : List Char) : List Char → Option (List Char)
  | [] => if leadMatch p [] then some [] else none
  | c :: t =>
    if leadMatch p (c :: t) then some (List.drop p.length (c :: t))
    else dropThrough p t

/-- Boolean check that the given chunks occur in `s`, in order, left to right. -/
def chainB : List (List Char) → List Char → Bool
  | [], _ => true
  | p :: ps, s =>
    match dropThrough p s with
    | none => false
    | some r => chainB ps r

/-- The chunks occur in `s` in the given order (as disjoint infixes, left to right). -/
def ChainP : List (List Char) → List Char → Prop
  | [], _ => True
  | p :: ps, s => ∃ g r, s = g ++ p ++ r ∧ ChainP ps r

/-- `s` ends with exactly one trailing newline: its last character is a
newline and the character before that is not. -/
def EndsOneNL (s : List Char) : Prop :=
  ∃ t c, s = t ++ [c, '\n'] ∧ c ≠ '\n'

/-- Boolean check for `EndsOneNL`. -/
def endsOneNLB (s : List Char) : Bool :=
  match s.reverse with
  | a :: b :: _ => a == '\n' && !(b == '\n')
  | _ => false

/-- Models Python `str.endswith(suffix)`. -/
def pyEndsWith (s suffix : String) : Bool :=
  leadMatch suffix.data.reverse s.data.reverse

/-- Python slice `s[n:]` (character based). -/
def pySlice (s : String) (n : Nat) : String :=
  String.mk (s.data.drop n)

/-- Substring test: `strContainsB hay needle = true` iff `needle` occurs in `hay`. -/
def strContainsB (hay needle : String) : Bool :=
  match dropThrough needle.data hay.data with
  | some _ => true
  | none => false

/-- Python truthiness of an optional string: `None` and `""` are falsy. -/
def pyTruthy : Option String → Bool
  | none => false
  | some s => !(s == "")

/-- Python f-string rendering of an optional string value. -/
def pyStr : Option String → String
  | none => "None"
  | some s => s

/-! ### ConfigStore (src/prm/config.py) -/

/-- `ConfigKey` enumeration, config.py lines 10-17. -/
inductive ConfigKey
  | RCLONE_REMOTE
  | LOCAL_FILES_PATH
  | MOUNT_RCLONE_PATH
  | MOUNT_MERGE_PATH
  | DOWNLOAD_COMPLETE_PATH
  | PLEX_MEDIA_SERVER_PATH
deriving DecidableEq

/-- `Overriden` lookup-mode enumeration, config.py lines 20-23. -/
inductive Overriden
  | ONLY_OVERRIDEN
  | ONLY_CONFIG
  | OVERRIDEN_THEN_CONFIG
deriving DecidableEq

/-- The error kinds the two source files raise.  `invalidPathValue` is the
`ValueError` of config.py line 49, `missingRequiredConfig` the `ValueError`
of config.py lines 98 and 104, `flagValidation msg` an `echo(msg)` followed
by `click.Abort()` in cli.py, and `scanRootNotFound` the abort at
cli.py lines 283-285. -/
inductive PrmError
  | invalidPathValue
  | missingRequiredConfig
  | flagValidation (msg : String)
  | scanRootNotFound
deriving DecidableEq

/-- The two layers of `Config` (config.py lines 26-39), post-load: the
Python dicts are keyed by `config_key.name.lower()`, which is in bijection
with `ConfigKey`, so both layers are maps from `ConfigKey`. -/
structure Config where
  overriden : ConfigKey → Option String
  cachedConfig : ConfigKey → Option String

/-- A config with both layers empty. -/
def emptyConfig : Config :=
  { overriden := fun _ => none, cachedConfig := fun _ => none }

/-- `self._path_config_values`, config.py lines 32-39. -/
def path_config_values : List ConfigKey :=
  [ConfigKey.LOCAL_FILES_PATH, ConfigKey.MOUNT_RCLONE_PATH,
   ConfigKey.MOUNT_MERGE_PATH, ConfigKey.DOWNLOAD_COMPLETE_PATH,
   ConfigKey.PLEX_MEDIA_SERVER_PATH]

/-- `Config._set`, config.py lines 80-84. -/
def Config._set (c : Config) (config_key : ConfigKey) (value : String)
    (overriden : Bool) : Config :=
  if overriden then
    { c with overriden := fun x => if x == config_key then some value else c.overriden x }
  else
    { c with cachedConfig := fun x => if x == config_key then some value else c.cachedConfig x }

/-- `Config._get`, config.py lines 90-105.  The lazy `_load_if_needed` on
line 100 is a no-op in the post-load model. -/
def Config._get (c : Config) (config_key : ConfigKey) (required : Bool)
    (overriden : Overriden) : Except PrmError (Option String) :=
  if (c.overriden config_key).isSome &&
      (overriden == Overriden.ONLY_OVERRIDEN ||
       overriden == Overriden.OVERRIDEN_THEN_CONFIG) then
    Except.ok (c.overriden config_key)
  else if overriden == Overriden.ONLY_OVERRIDEN then
    (if required then Except.error PrmError.missingRequiredConfig else Except.ok none)
  else
    let value := c.cachedConfig config_key
    if required && !(pyTruthy value) then Except.error PrmError.missingRequiredConfig
    else Except.ok value

/-- `Config.get`, config.py lines 107-108 (`required` defaults to `True`
in the source; it is passed explicitly here). -/
def Config.get (c : Config) (config_key : ConfigKey) (required : Bool) :
    Except PrmError (Option String) :=
  c._get config_key required Overriden.OVERRIDEN_THEN_CONFIG

/-- One iteration of the loop in `Config._clean`, config.py lines 41-50.
`norm` stands for `str(Path(config_value).expanduser())` (line 50), an
environment-dependent operation passed in opaquely. -/
def Config.cleanStep (norm : String → String) (ov : Bool) (c : Config)
    (config_key : ConfigKey) : Except PrmError Config :=
  match (if ov then c._get config_key false Overriden.ONLY_OVERRIDEN
         else c._get config_key false Overriden.ONLY_CONFIG) with
  | Except.error e => Except.error e
  | Except.ok none => Except.ok c
  | Except.ok (some v) =>
    if v == "" then Except.ok c
    else if pyEndsWith v "/" then Except.error PrmError.invalidPathValue
    else Except.ok (c._set config_key (norm v) ov)

/-- `Config._clean`, config.py lines 41-50: walk `path_config_values`,
validating and normalising the chosen layer. -/
def Config._clean (c : Config) (norm : String → String) (ov : Bool) :
    Except PrmError Config :=
  path_config_values.foldlM (Config.cleanStep norm ov) c

/-- `Config.set_value`, config.py lines 86-88.  Note that the source calls
`self._clean()` with its default `overriden=False`, so it re-validates the
file layer, not the override layer it just wrote to. -/
def Config.set_value (norm : String → String) (c : Config)
    (config_key : ConfigKey) (value : String) : Except PrmError Config :=
  (c._set config_key value true)._clean norm false

/-- `Config._load`, config.py lines 52-74, after the file has been decoded:
the decoded mapping becomes the file layer and `_clean()` runs over it. -/
def Config.load (norm : String → String) (c : Config)
    (fileMap : ConfigKey → Option String) : Except PrmError Config :=
  ({ c with cachedConfig := fileMap })._clean norm false

/-- `Config.clear_overriden`, config.py lines 110-111. -/
def Config.clear_overriden (c : Config) : Config :=
  { c with overriden := fun _ => none }

/-- Fetch a required config value the way an f-string interpolation of
`config.get(key)` renders it (cli.py composition code). -/
def Config.getValStr (c : Config) (config_key : ConfigKey) :
    Except PrmError String :=
  match c.get config_key true with
  | Except.error e => Except.error e
  | Except.ok v => Except.ok (pyStr v)

/-! ### CommandComposer (src/prm/cli.py)

Each block below is the value of `process_multiline(f"...")` for one of
the cli.py templates: `process_multiline` is
`textwrap.dedent(text).strip() + '\n'` (cli.py lines 45-46), so the block
is the template with its common leading margin removed, `\<newline>`
f-string line continuations resolved, surrounding whitespace stripped and
one final newline appended.  Note `"\\"` in the template source renders as
one literal backslash kept at end of line (a shell continuation in the
output), while a single `\` at end of a template line is a Python string
continuation joining it with the following line (including that line's
margin spaces). -/

/-- Constant part of the after-manual-import template before the
interpolated DOWNLOAD_COMPLETE_PATH value (cli.py line 95). -/
def cleanBlockPre : String := "path=\""

/-- Constant part of the after-manual-import template after the
interpolated value (cli.py lines 95-105, rendered).  The run of 13 spaces
inside the first `find` line is the space before the line continuation of
line 97 plus the 12-space margin of line 98, which the continuation splices
into the middle of the line. -/
def cleanBlockPost : String :=
  "\"\n" ++
  "echo \"Deleting extra files\"\n" ++
  "find ${path} -type f \\( -iname \"*sample*\" -o -iname \"*.nfo\" -o -iname \"*.nzb\" -o -iname \"*.jpg\"" ++
  "             -o -iname \"*.srr\" -o -iname \"*.url\" -o -iname \"*.txt\" \\) -print -delete\n" ++
  "echo \"Deleting empty Films folders\"\n" ++
  "find ${path}/Films -type d -empty -print -delete\n" ++
  "echo \"Deleting empty TV folders\"\n" ++
  "find ${path}/TV -type d -empty -print -delete\n" ++
  "echo \"Deleting empty Music folders\"\n" ++
  "find ${path}/Music -type d -empty -print -delete\n"

/-- `process_multiline` result for the `--after-manual-import` template
(cli.py lines 93-106), with `dcp` the interpolated
`config.get(ConfigKey.DOWNLOAD_COMPLETE_PATH)` value. -/
def cleanAfterImportBlock (dcp : String) : String :=
  cleanBlockPre ++ dcp ++ cleanBlockPost

/-- `process_multiline` result for the `--manual-import-partials` template
(cli.py lines 108-115), with `lfp` the interpolated
`config.get(ConfigKey.LOCAL_FILES_PATH)` value.  The second and fourth
lines keep 4 leading spaces (16-space indent minus the 12-space margin). -/
def cleanPartialsBlock (lfp : String) : String :=
  "find " ++ lfp ++ " -type f -iname \"*.partial~\" -not \\\n" ++
  "    -path " ++ lfp ++ "/download/* -print -delete\n" ++
  "find " ++ lfp ++ " -mindepth 1 -type d -not \\\n" ++
  "    -path " ++ lfp ++ "/download/* -empty -print -delete\n"

/-- The full command string `clean` builds (cli.py lines 91-115): the
`set -x` header plus the blocks of the enabled flags. -/
def clean_cmd (after_manual_import manual_import_partials : Bool)
    (dcp lfp : String) : String :=
  "set -x\n" ++
  (if after_manual_import then cleanAfterImportBlock dcp else "") ++
  (if manual_import_partials then cleanPartialsBlock lfp else "")

/-- `process_multiline` result for the three `rclone sync` steps of
`upload --local-server-setup` (cli.py lines 156-170), with `r` the
interpolated RCLONE_REMOTE value. -/
def uploadSyncBlock (r : String) : String :=
  "/usr/local/bin/rclone sync -v --progress \\\n" ++
  "~/scripts \\\n" ++ r ++ ":/Backups/Server/Scripts\n\n" ++
  "/usr/local/bin/rclone sync -v --progress \\\n" ++
  "~/.startup \\\n" ++ r ++ ":/Backups/Server/Startup\n\n" ++
  "/usr/local/bin/rclone sync -v --progress \\\n" ++
  "~/.shutdown \\\n" ++ r ++ ":/Backups/Server/Shutdown\n"

/-- `process_multiline` result for the dot-config tarball-creation step of
`upload --local-server-setup` (cli.py lines 172-181); no interpolation. -/
def uploadTarConfigBlock : String :=
  "file_path=~/\"tmp/plex_server_backups/dot_config/$(date +\"%Y/%m\")\"\n" ++
  "mkdir -p \"${file_path}\"\n" ++
  "/bin/tar -czhf \"${file_path}/$(date +\"%Y-%m-%d\").tar.gz\" \\\n" ++
  "-C ~ \\\n" ++
  ".config\n"

/-- `process_multiline` result for the dot-config `rclone move` step
(cli.py lines 183-193). -/
def uploadMoveConfigBlock (r : String) : String :=
  "/usr/local/bin/rclone move \\\n" ++
  "~/tmp/plex_server_backups/dot_config " ++ r ++ ":/Backups/Server/Config \\\n" ++
  "-v \\\n--transfers=1 \\\n--progress \\\n--delete-empty-src-dirs \\\n" ++
  "--drive-stop-on-upload-limit\n"

/-- `process_multiline` result for the plex-data tarball-creation step
(cli.py lines 196-207), with `p` the interpolated PLEX_MEDIA_SERVER_PATH
value.  The source has two spaces after `-czhf` on line 200. -/
def uploadTarPlexBlock (p : String) : String :=
  "file_path=~/\"tmp/plex_server_backups/plex_data/$(date +\"%Y/%m\")\"\n" ++
  "mkdir -p \"${file_path}\"\n" ++
  "/bin/tar -czhf  \"${file_path}/$(date +\"%Y-%m-%d\").tar.gz\" \\\n" ++
  "-C ~ \\\n" ++
  "\"" ++ p ++ "Media/\" \\\n" ++
  "\"" ++ p ++ "Metadata/\" \\\n" ++
  "\"" ++ p ++ "Plug-ins/\" \\\n" ++
  "\"" ++ p ++ "Plug-in Support/\"\n"

/-- `process_multiline` result for the plex-data `rclone move` step
(cli.py lines 208-218). -/
def uploadMovePlexBlock (r : String) : String :=
  "/usr/local/bin/rclone move \\\n" ++
  "~/tmp/plex_server_backups/plex_data " ++ r ++ ":/Backups/Plex \\\n" ++
  "-v \\\n--transfers=1 \\\n--progress \\\n--delete-empty-src-dirs \\\n" ++
  "--drive-stop-on-upload-limit\n"

/-- `process_multiline` result for the `--media` `rclone move` step
(cli.py lines 220-233), with `l` the LOCAL_FILES_PATH and `r` the
RCLONE_REMOTE values. -/
def uploadMediaBlock (l r : String) : String :=
  "echo \"Moving processed content\"\n" ++
  "/usr/local/bin/rclone move \\\n" ++
  "\"" ++ l ++ "\" " ++ r ++ ": \\\n" ++
  "-v \\\n--progress \\\n--delete-empty-src-dirs \\\n" ++
  "--exclude \"/download/**\" \\\n--exclude \"*.partial~\" \\\n" ++
  "--transfers=1 \\\n--drive-stop-on-upload-limit\n"

/-! ### Command handlers (src/prm/cli.py)

A handler returns `Except PrmError (String × List String)`: the composed
command string and the trace of strings handed to `execute`
(cli.py lines 49-56).  Repeated `config.get` calls of one template are
fetched once per block; `get` is a pure read, so this is observationally
identical. -/

/-- The `clean` command handler, cli.py lines 85-115.  The source composes
`cmd` and then falls off the end of the function without calling
`execute(cmd)` (compare `upload`, line 235), so the trace is empty. -/
def clean (c : Config) (after_manual_import manual_import_partials : Bool) :
    Except PrmError (String × List String) :=
  let c := c.clear_overriden
  (do
    let dcp ← if after_manual_import then c.getValStr ConfigKey.DOWNLOAD_COMPLETE_PATH
              else pure ""
    let lfp ← if manual_import_partials then c.getValStr ConfigKey.LOCAL_FILES_PATH
              else pure ""
    pure (clean_cmd after_manual_import manual_import_partials dcp lfp,
          ([] : List String)))

/-- The `upload` command handler, cli.py lines 118-235: flag validation
(lines 137-147), flag-sourced overrides (lines 149-152), composition
(lines 154-233, in declaration order local-server-setup, plex-data,
media), then `execute(cmd)` (line 235).  `lss`/`med`/`pd` are the flag
variables after the `--all` expansion of line 141. -/
def upload (norm : String → String) (c : Config)
    (all_ local_server_setup media plex_data no_tar : Bool)
    (rclone_remote plex_media_server_path : Option String) :
    Except PrmError (String × List String) :=
  let c := c.clear_overriden
  if all_ && (local_server_setup || media || plex_data) then
    Except.error (PrmError.flagValidation
      "If --all is specified, no other related options should be")
  else
    let lss := all_ || local_server_setup
    let med := all_ || media
    let pd := all_ || plex_data
    if !all_ && !(local_server_setup || media || plex_data) then
      Except.error (PrmError.flagValidation "No target options given")
    else if no_tar && !(lss || pd) then
      Except.error (PrmError.flagValidation
        "No tar given for uploads that do not create a tar")
    else
      match (if pyTruthy rclone_remote
             then Config.set_value norm c ConfigKey.RCLONE_REMOTE (pyStr rclone_remote)
             else Except.ok c) with
      | Except.error e => Except.error e
      | Except.ok c =>
        match (if pyTruthy plex_media_server_path
               then Config.set_value norm c ConfigKey.PLEX_MEDIA_SERVER_PATH
                      (pyStr plex_media_server_path)
               else Except.ok c) with
        | Except.error e => Except.error e
        | Except.ok c =>
          (do
            let b1 ← if lss then do
                let r ← c.getValStr ConfigKey.RCLONE_REMOTE
                pure (uploadSyncBlock r ++
                      (if no_tar then uploadTarConfigBlock else "") ++
                      uploadMoveConfigBlock r)
              else pure ""
            let b2 ← if pd then do
                let t ← if no_tar then do
                    let p ← c.getValStr ConfigKey.PLEX_MEDIA_SERVER_PATH
                    pure (uploadTarPlexBlock p)
                  else pure ""
                let r ← c.getValStr ConfigKey.RCLONE_REMOTE
                pure (t ++ uploadMovePlexBlock r)
              else pure ""
            let b3 ← if med then do
                let l ← c.getValStr ConfigKey.LOCAL_FILES_PATH
                let r ← c.getValStr ConfigKey.RCLONE_REMOTE
                pure (uploadMediaBlock l r)
              else pure ""
            let cmd := "set -x\n" ++ b1 ++ b2 ++ b3
            pure (cmd, [cmd]))

/-! ### ThumbnailScanner (src/prm/cli.py lines 243-312) -/

/-- A second-level directory entry under a first-level folder: its name
and whether `Contents/Indexes/index-sd.bif` exists inside it
(cli.py line 294). -/
structure BundleEntry where
  name : String
  hasIndex : Bool
deriving DecidableEq

/-- A first-level entry of the scan root: its name, its `is_dir()` flag and
its second-level entries. -/
structure MediaDir where
  name : String
  isDir : Bool
  bundles : List BundleEntry
deriving DecidableEq

/-- Everything `preview-thumbnails` emits through `echo`, as structured
values.  `progressLine remaining processed total` is the running snapshot
of cli.py lines 300-303, `summaryJson` the JSON summary of line 308 and
`summaryLines` the four-line text summary of lines 310-312; both progress
and text summary also render `round(missing*100/total, 2)`, a
floating-point value derived from the counters carried here. -/
inductive ScanOutput
  | folder (s : String)
  | progressLine (remaining processed total : Nat)
  | summaryJson (remaining total : Nat)
  | summaryLines (remaining processed total : Nat)
deriving DecidableEq

/-- The scanner counters and emitted output (cli.py lines 278-280). -/
structure ScanState where
  missing : Nat
  total : Nat
  last_update : Nat
  out : List ScanOutput
deriving DecidableEq

/-- Whether an output is a running progress snapshot. -/
def ScanOutput.isProgressLine : ScanOutput → Bool
  | ScanOutput.progressLine _ _ _ => true
  | _ => false

/-- The body of the inner loop of the scan, cli.py lines 290-304, for one
second-level entry `b` of the first-level entry with path `aPath` and
`is_dir()` flag `aIsDir`.  `b.path` is `aPath + "/" + b.name` (the
`os.scandir` entry path); the inner guard re-tests `a.is_dir()` exactly as
line 291 does.  `total - missing` and the counters are naturals: `missing`
is only ever incremented together with `total`, so no underflow occurs.
The printed folder name is `b.path[len('localhost/'):]`, i.e. the bundle
path minus its first 10 characters (line 297). -/
def scanBundle (print_folders progress : Bool) (update_rate : Nat)
    (aPath : String) (aIsDir : Bool) (st : ScanState) (b : BundleEntry) :
    ScanState :=
  let bPath := aPath ++ "/" ++ b.name
  if !aIsDir || !(pyEndsWith bPath ".bundle") then st
  else
    let total := st.total + 1
    if b.hasIndex then { st with total := total }
    else
      let missing := st.missing + 1
      let out1 := if print_folders then st.out ++ [ScanOutput.folder (pySlice bPath 10)]
                  else st.out
      if progress && decide (st.last_update + update_rate ≤ total) then
        { missing := missing, total := total, last_update := total,
          out := out1 ++ [ScanOutput.progressLine missing (total - missing) total] }
      else
        { st with missing := missing, total := total, out := out1 }

/-- The outer loop body, cli.py lines 287-289: skip non-directories, then
walk the second-level entries; `a.path` is `root + "/" + a.name`. -/
def scanDir (print_folders progress : Bool) (update_rate : Nat)
    (root : String) (st : ScanState) (a : MediaDir) : ScanState :=
  if !a.isDir then st
  else a.bundles.foldl
    (scanBundle print_folders progress update_rate (root ++ "/" ++ a.name) a.isDir)
    st

/-- The full two-level walk, cli.py lines 287-304, from zeroed counters. -/
def runScan (print_folders progress : Bool) (update_rate : Nat)
    (root : String) (dirs : List MediaDir) : ScanState :=
  dirs.foldl (scanDir print_folders progress update_rate root)
    { missing := 0, total := 0, last_update := 0, out := [] }

/-- The directory tree the scan sees: whether the computed root path
exists, and its entries. -/
structure ScanFS where
  rootExists : Bool
  dirs : List MediaDir

/-- The `plex preview-thumbnails` command handler, cli.py lines 243-312:
clear overrides, validate flags in source order (lines 255-273), apply the
path flag override (lines 275-276), resolve the root
`config.get(PLEX_MEDIA_SERVER_PATH) + 'Media/localhost'` (line 282), check
it exists, scan, then append the requested summary. -/
def preview_thumbnails (norm : String → String) (c : Config)
    (summary print_folders print_json progress : Bool) (update_rate : Nat)
    (plex_media_server_path : Option String) (fs : ScanFS) :
    Except PrmError (List ScanOutput) :=
  let c := c.clear_overriden
  if !(summary || print_folders) then
    Except.error (PrmError.flagValidation "Summary or print must be given")
  else if print_json && !summary then
    Except.error (PrmError.flagValidation "Summary must be given when using JSON")
  else if progress && print_json then
    Except.error (PrmError.flagValidation "Progress does not support JSON")
  else if progress && !summary then
    Except.error (PrmError.flagValidation "Summary must be given if using progress")
  else if update_rate < 1 then
    Except.error (PrmError.flagValidation "Update rate must be at least 1")
  else
    match (if pyTruthy plex_media_server_path
           then Config.set_value norm c ConfigKey.PLEX_MEDIA_SERVER_PATH
                  (pyStr plex_media_server_path)
           else Except.ok c) with
    | Except.error e => Except.error e
    | Except.ok c =>
      match c.get ConfigKey.PLEX_MEDIA_SERVER_PATH true with
      | Except.error e => Except.error e
      | Except.ok v =>
        let root := pyStr v ++ "Media/localhost"
        if !fs.rootExists then Except.error PrmError.scanRootNotFound
        else
          let st := runScan print_folders progress update_rate root fs.dirs
          Except.ok
            (if summary then
              (if print_json then st.out ++ [ScanOutput.summaryJson st.missing st.total]
               else st.out ++ [ScanOutput.summaryLines st.missing (st.total - st.missing) st.total])
             else st.out)

/-! ### Named command lines and concrete fixtures used by the claims -/

/-- The junk-file deletion line of the after-manual-import block (the
rendered cli.py lines 97-98). -/
def cleanJunkLine : String :=
  "find ${path} -type f \\( -iname \"*sample*\" -o -iname \"*.nfo\" -o -iname \"*.nzb\" -o -iname \"*.jpg\"" ++
  "             -o -iname \"*.srr\" -o -iname \"*.url\" -o -iname \"*.txt\" \\) -print -delete"

/-- The Films folder-cleanup line (cli.py line 100). -/
def cleanFilmsLine : String := "find ${path}/Films -type d -empty -print -delete"

/-- The TV folder-cleanup line (cli.py line 102). -/
def cleanTVLine : String := "find ${path}/TV -type d -empty -print -delete"

/-- The Music folder-cleanup line (cli.py line 104). -/
def cleanMusicLine : String := "find ${path}/Music -type d -empty -print -delete"

/-- The trace of commands `clean` hands to `execute`, empty on error. -/
def cleanTrace (c : Config) (after_manual_import manual_import_partials : Bool) :
    List String :=
  match clean c after_manual_import manual_import_partials with
  | Except.ok (_, trace) => trace
  | Except.error _ => []

/-- Whether a config operation succeeded. -/
def exceptIsOk : Except PrmError Config → Bool
  | Except.ok _ => true
  | Except.error _ => false

/-- A config whose file layer holds only `download_complete_path=/dl`. -/
def cfgDl : Config :=
  { overriden := fun _ => none,
    cachedConfig := fun k =>
      if k == ConfigKey.DOWNLOAD_COMPLETE_PATH then some "/dl" else none }

/-- A decoded config file mapping holding only `local_files_path=/a/`
(a path-typed value ending in the separator). -/
def fileBadMap : ConfigKey → Option String :=
  fun k => if k == ConfigKey.LOCAL_FILES_PATH then some "/a/" else none

/-- A config whose file layer resolves `rclone_remote` to the empty string. -/
def cfgEmptyStr : Config :=
  { overriden := fun _ => none,
    cachedConfig := fun k =>
      if k == ConfigKey.RCLONE_REMOTE then some "" else none }

/-- A scan tree: one first-level directory holding three bundles, all of
which have the index file. -/
def fsAllPresent : ScanFS :=
  { rootExists := true,
    dirs := [{ name := "Movies", isDir := true,
               bundles := [{ name := "a.bundle", hasIndex := true },
                           { name := "b.bundle", hasIndex := true },
                           { name := "c.bundle", hasIndex := true }] }] }

/-! ### Helper lemmas -/

theorem leadMatch_sound : ∀ p s : List Char, leadMatch p s = true → ∃ t, s = p ++ t := by
  intro p
  induction p with
  | nil => intro s _; exact ⟨s, rfl⟩
  | cons c p ih =>
    intro s h
    cases s with
    | nil => simp [leadMatch] at h
    | cons d t =>
      rw [leadMatch, Bool.and_eq_true, beq_iff_eq] at h
      obtain ⟨t', ht⟩ := ih t h.2
      exact ⟨t', by rw [h.1, List.cons_append, ht]⟩

theorem dropThrough_sound :
    ∀ s p r : List Char, dropThrough p s = some r → ∃ g, s = g ++ p ++ r := by
  intro s
  induction s with
  | nil =>
    intro p r h
    cases p with
    | nil =>
      simp [dropThrough, leadMatch] at h
      exact ⟨[], by simp [h]⟩
    | cons c p => simp [dropThrough, leadMatch] at h
  | cons c t ih =>
    intro p r h
    rw [dropThrough] at h
    by_cases hm : leadMatch p (c :: t) = true
    · rw [if_pos hm] at h
      obtain ⟨t', ht⟩ := leadMatch_sound p (c :: t) hm
      refine ⟨[], ?_⟩
      have hr : r = t' := by
        have := h
        rw [ht, List.drop_left] at this
        exact (Option.some.injEq _ _).mp this.symm
      rw [hr, List.nil_append, ht]
    · rw [if_neg hm] at h
      obtain ⟨g, hg⟩ := ih p r h
      exact ⟨c :: g, by rw [hg]; rfl⟩

theorem chainB_sound : ∀ ps (s : List Char), chainB ps s = true → ChainP ps s := by
  intro ps
  induction ps with
  | nil => intro s _; trivial
  | cons p ps ih =>
    intro s h
    rw [chainB] at h
    cases hd : dropThrough p s with
    | none => rw [hd] at h; exact absurd h (by simp)
    | some r =>
      rw [hd] at h
      obtain ⟨g, hg⟩ := dropThrough_sound s p r hd
      exact ⟨g, r, hg, ih r h⟩

theorem chainP_append_left :
    ∀ ps (t s : List Char), ChainP ps s → ChainP ps (t ++ s) := by
  intro ps t s h
  cases ps with
  | nil => trivial
  | cons p ps =>
    obtain ⟨g, r, hg, h2⟩ := h
    exact ⟨t ++ g, r, by rw [hg]; simp, h2⟩

theorem endsOneNLB_sound : ∀ s : List Char, endsOneNLB s = true → EndsOneNL s := by
  intro s h
  rw [endsOneNLB] at h
  cases hrev : s.reverse with
  | nil => rw [hrev] at h; exact absurd h (by simp)
  | cons a t =>
    cases t with
    | nil => rw [hrev] at h; exact absurd h (by simp)
    | cons b rest =>
      rw [hrev, Bool.and_eq_true, beq_iff_eq, Bool.not_eq_eq_eq_not, Bool.not_true,
        beq_eq_false_iff_ne] at h
      refine ⟨rest.reverse, b, ?_, h.2⟩
      have hs : s = (a :: b :: rest).reverse := by
        rw [← hrev, List.reverse_reverse]
      rw [hs, List.reverse_cons, List.reverse_cons, h.1]
      simp

theorem endsOneNL_append_left :
    ∀ t s : List Char, EndsOneNL s → EndsOneNL (t ++ s) := by
  intro t s h
  obtain ⟨u, c, hu, hc⟩ := h
  exact ⟨t ++ u, c, by rw [hu]; simp, hc⟩

theorem str_data_append : ∀ a b : String, (a ++ b).data = a.data ++ b.data := by
  intro a b
  cases a
  cases b
  rfl

theorem str_data_empty : ("" : String).data = [] := rfl

/-! ### Claims -/

/-- Claim C1.  The claim states that `upload` with `--no-tar` and a
tar-producing family composes no tarball-creation statements, and that
without `--no-tar` it composes them.  The code does the opposite: the
guard `if no_tar is True` (cli.py lines 172 and 195) adds the
tarball-creation block exactly when `--no-tar` is given.  Evaluated at
`upload --local-server-setup --no-tar -r gdrive`, the composed command
contains the tarball-creation statement `/bin/tar -czhf`, and at
`upload --local-server-setup -r gdrive` (no `--no-tar`) it contains no
`/bin/tar` statement at all — both directions of the claim fail. -/
theorem C1_no_tar_inverted :
    (match upload (fun s => s) emptyConfig false true false false true (some "gdrive") none with
     | Except.ok (cmd, _) => strContainsB cmd "/bin/tar -czhf"
     | Except.error _ => false) = true
    ∧ (match upload (fun s => s) emptyConfig false true false false false (some "gdrive") none with
       | Except.ok (cmd, _) => strContainsB cmd "/bin/tar"
       | Except.error _ => true) = false :=
  ⟨by decide, by decide⟩

/-- Claim C2.  The claim states that the composed result of `clean` is
handed to the external command runner (or printed).  The code composes
`cmd` (cli.py lines 91-115) and then falls off the end of the function:
`execute(cmd)` is never called (contrast `upload`, line 235), so the
execute-trace of `clean` is empty for every input, while at the concrete
valid invocation `clean --after-manual-import` a non-empty command was
composed and then discarded. -/
theorem C2_clean_result_discarded :
    (∀ (c : Config) (a m : Bool), cleanTrace c a m = [])
    ∧ (match clean cfgDl true false with
       | Except.ok (cmd, trace) => trace.isEmpty && !(cmd == "")
       | Except.error _ => false) = true := by
  constructor
  · intro c a m
    unfold cleanTrace clean
    cases a <;> cases m
    · rfl
    · cases hy : (Config.clear_overriden c).getValStr ConfigKey.LOCAL_FILES_PATH <;>
        simp [hy, Except.map, Functor.map]
    · cases hx : (Config.clear_overriden c).getValStr ConfigKey.DOWNLOAD_COMPLETE_PATH <;>
        simp [hx, Except.bind, Bind.bind, Pure.pure, Except.pure]
    · cases hx : (Config.clear_overriden c).getValStr ConfigKey.DOWNLOAD_COMPLETE_PATH with
      | error e => simp [hx, Except.bind, Bind.bind]
      | ok dcp =>
        cases hy : (Config.clear_overriden c).getValStr ConfigKey.LOCAL_FILES_PATH <;>
          simp [hx, hy, Except.bind, Bind.bind, Except.map, Functor.map, Pure.pure, Except.pure]
  · decide

/-- Claim C3.  The claim states that a path-typed value ending in the
separator yields `InvalidPathValue` both from the config file and from
`set_value`.  The file half holds: loading a file mapping with
`local_files_path=/a/` fails.  The `set_value` half fails on the code:
`set_value` calls `self._clean()` with its default `overriden=False`
(config.py line 88), so it validates the file layer instead of the
override layer it just wrote (the `overriden=True` branch of `_clean` is
never invoked anywhere); the trailing-slash override is accepted and is
subsequently returned by `get`. -/
theorem C3_set_value_skips_override_layer :
    Config.load (fun s => s) emptyConfig fileBadMap = Except.error PrmError.invalidPathValue
    ∧ exceptIsOk (Config.set_value (fun s => s) emptyConfig ConfigKey.LOCAL_FILES_PATH "/a/") = true
    ∧ (match Config.set_value (fun s => s) emptyConfig ConfigKey.LOCAL_FILES_PATH "/a/" with
       | Except.ok c => Config.get c ConfigKey.LOCAL_FILES_PATH true
       | Except.error e => Except.error e) = Except.ok (some "/a/") :=
  ⟨rfl, rfl, rfl⟩

/-- Claim C5.  The claim states that with bundle-name printing enabled the
emitted string is the bundle path relative to the scan root.  The code
emits `b.path[len('localhost/'):]` (cli.py line 297), i.e. the absolute
bundle path minus its first 10 characters: for root
`/x/Media/localhost` and bundle `Movies/a.bundle` it prints
`ocalhost/Movies/a.bundle`, not the relative path `Movies/a.bundle`. -/
theorem C5_folder_path_slice :
    (runScan true false 1 "/x/Media/localhost"
        [{ name := "Movies", isDir := true,
           bundles := [{ name := "a.bundle", hasIndex := false }] }]).out
      = [ScanOutput.folder "ocalhost/Movies/a.bundle"]
    ∧ ("ocalhost/Movies/a.bundle" : String) ≠ "Movies/a.bundle" :=
  ⟨rfl, by decide⟩

/-- Claim C4, counterexample.  The claim states that with progress enabled
a snapshot is emitted whenever the total bundle counter has advanced by at
least the update rate since the last emission, independently of whether the
bundles are missing the index file.  Concretely: a valid
`preview-thumbnails --summary --progress --update-rate 1` run over three
bundles that all have the index file visits three bundles (the final
summary records total 3), so with rate 1 the claim demands progress
snapshots, yet the run emits only the final summary and no
`progressLine` at all: the progress check (cli.py lines 298-304) sits
inside the missing-index branch of line 294. -/
theorem C4_counterexample :
    preview_thumbnails (fun s => s) emptyConfig true false false true 1 (some "/x/") fsAllPresent
      = Except.ok [ScanOutput.summaryLines 0 3 3]
    ∧ [ScanOutput.summaryLines 0 3 3].filter ScanOutput.isProgressLine = [] :=
  ⟨rfl, rfl⟩

/-- Claim C4, amended: during a scan with progress enabled, the running
snapshot is emitted only upon visiting a counted bundle that is missing
the index file; a bundle whose index file is present never emits anything.
At a counted missing bundle the snapshot is emitted exactly when
`last_update + update_rate <= total` holds for the incremented total —
then it carries the updated counters and `last_update` is set to `total`;
below the threshold no snapshot is emitted (only the folder line when
printing is enabled) and `last_update` is unchanged. -/
theorem C4_amended :
    ∀ (print_folders : Bool) (update_rate : Nat) (aPath : String)
      (aIsDir : Bool) (st : ScanState) (b : BundleEntry),
    (b.hasIndex = true →
      (scanBundle print_folders true update_rate aPath aIsDir st b).out = st.out) ∧
    (b.hasIndex = false → aIsDir = true →
      pyEndsWith (aPath ++ "/" ++ b.name) ".bundle" = true →
      st.last_update + update_rate ≤ st.total + 1 →
      (scanBundle print_folders true update_rate aPath aIsDir st b).out =
        (if print_folders then
           st.out ++ [ScanOutput.folder (pySlice (aPath ++ "/" ++ b.name) 10)]
         else st.out)
        ++ [ScanOutput.progressLine (st.missing + 1)
              (st.total + 1 - (st.missing + 1)) (st.total + 1)]
      ∧ (scanBundle print_folders true update_rate aPath aIsDir st b).last_update
          = st.total + 1) ∧
    (b.hasIndex = false → aIsDir = true →
      pyEndsWith (aPath ++ "/" ++ b.name) ".bundle" = true →
      ¬ (st.last_update + update_rate ≤ st.total + 1) →
      (scanBundle print_folders true update_rate aPath aIsDir st b).out =
        (if print_folders then
           st.out ++ [ScanOutput.folder (pySlice (aPath ++ "/" ++ b.name) 10)]
         else st.out)
      ∧ (scanBundle print_folders true update_rate aPath aIsDir st b).last_update
          = st.last_update) := by
  intro print_folders update_rate aPath aIsDir st b
  refine ⟨?_, ?_, ?_⟩
  · intro hidx
    by_cases hg : (!aIsDir || !(pyEndsWith (aPath ++ "/" ++ b.name) ".bundle")) = true
    · simp [scanBundle, hg]
    · simp only [Bool.not_eq_true] at hg
      simp [scanBundle, hg, hidx]
  · intro hidx hdir hsuf hle
    simp [scanBundle, hdir, hsuf, hidx, hle]
  · intro hidx hdir hsuf hnle
    simp [scanBundle, hdir, hsuf, hidx, hnle]

/-- Claim C4, amended, witness: at zeroed counters, one counted missing
bundle with rate 1 (threshold met) emits exactly the snapshot
`progressLine 1 0 1` and sets `last_update` to the new total 1, while
with rate 2 (threshold not met) it emits nothing and leaves `last_update`
at 0. -/
theorem C4_amended_witness :
    ((scanBundle false true 1 "/r" true
        { missing := 0, total := 0, last_update := 0, out := [] }
        { name := "x.bundle", hasIndex := false }).out
      = [ScanOutput.progressLine 1 0 1]
     ∧ (scanBundle false true 1 "/r" true
        { missing := 0, total := 0, last_update := 0, out := [] }
        { name := "x.bundle", hasIndex := false }).last_update = 1)
    ∧ ((scanBundle false true 2 "/r" true
        { missing := 0, total := 0, last_update := 0, out := [] }
        { name := "x.bundle", hasIndex := false }).out = []
     ∧ (scanBundle false true 2 "/r" true
        { missing := 0, total := 0, last_update := 0, out := [] }
        { name := "x.bundle", hasIndex := false }).last_update = 0) := by
  constructor
  · have h := (C4_amended false 1 "/r" true
        { missing := 0, total := 0, last_update := 0, out := [] }
        { name := "x.bundle", hasIndex := false }).2.1 rfl rfl (by decide) (by decide)
    exact ⟨by simpa using h.1, by simpa using h.2⟩
  · have h := (C4_amended false 2 "/r" true
        { missing := 0, total := 0, last_update := 0, out := [] }
        { name := "x.bundle", hasIndex := false }).2.2 rfl rfl (by decide) (by decide)
    exact ⟨by simpa using h.1, by simpa using h.2⟩

/-- Claim C6.  `upload` rejects `--all` combined with any of the three
individual target flags, and rejects an invocation with none of the four
target flags, with a `FlagValidationError` (an `echo` plus `click.Abort`,
cli.py lines 137-144); the validation runs before any command text is
composed and before `execute` is invoked, which the model reflects by
returning the error instead of a composed-command/trace pair, so no
partial output exists. -/
theorem C6_upload_flag_validation :
    ∀ (norm : String → String) (c : Config)
      (all_ lss media pd no_tar : Bool) (rr pp : Option String),
    ((all_ && (lss || media || pd)) = true ∨ (all_ || lss || media || pd) = false) →
    ∃ msg, upload norm c all_ lss media pd no_tar rr pp
      = Except.error (PrmError.flagValidation msg) := by
  intro norm c all_ lss media pd no_tar rr pp h
  rcases h with h | h
  · exact ⟨"If --all is specified, no other related options should be",
      by simp [upload, h]⟩
  · simp only [Bool.or_eq_false_iff] at h
    obtain ⟨⟨⟨ha, hl⟩, hm⟩, hp⟩ := h
    subst ha; subst hl; subst hm; subst hp
    exact ⟨"No target options given", by simp [upload]⟩

/-- Claim C6, witness: `upload --all --local-server-setup` is rejected. -/
theorem C6_upload_flag_validation_witness :
    ∃ msg, upload (fun s => s) emptyConfig true true false false false none none
      = Except.error (PrmError.flagValidation msg) :=
  C6_upload_flag_validation (fun s => s) emptyConfig true true false false false
    none none (Or.inl rfl)

/-- Claim C7.  For every resolved configuration value, the command string
composed for `clean --after-manual-import` contains the junk-file deletion
line and then the Films, TV and Music folder-cleanup lines, in that fixed
order, and the whole composed string ends with exactly one trailing
newline. -/
theorem C7_clean_command_text :
    ∀ dcp lfp : String,
    ChainP [cleanJunkLine.data, cleanFilmsLine.data, cleanTVLine.data, cleanMusicLine.data]
      (clean_cmd true false dcp lfp).data
    ∧ EndsOneNL (clean_cmd true false dcp lfp).data := by
  intro dcp lfp
  have h : (clean_cmd true false dcp lfp).data
      = (("set -x\n".data ++ cleanBlockPre.data) ++ dcp.data) ++ cleanBlockPost.data := by
    simp [clean_cmd, cleanAfterImportBlock, str_data_append, str_data_empty,
      List.append_assoc]
  rw [h]
  constructor
  · exact chainP_append_left _ _ _ (chainB_sound _ _ (by decide))
  · exact endsOneNL_append_left _ _ (endsOneNLB_sound _ (by decide))

/-- Claim C8.  Lookup precedence of `Config.get` (config.py lines 90-108):
if an override is present it is returned (even when a file value also
exists, and regardless of `required`); otherwise the file value is
returned when truthy; otherwise the lookup is absent — an error when
`required`, `None` when not.  There is no further default tier. -/
theorem C8_lookup_precedence :
    ∀ (c : Config) (k : ConfigKey) (required : Bool),
    Config.get c k required =
      (match c.overriden k with
       | some v => Except.ok (some v)
       | none =>
         if required && !(pyTruthy (c.cachedConfig k)) then
           Except.error PrmError.missingRequiredConfig
         else Except.ok (c.cachedConfig k)) := by
  intro c k required
  cases h : c.overriden k with
  | some v => simp [Config.get, Config._get, h]
  | none => simp [Config.get, Config._get, h]

/-- Claim C9.  `clear_overriden` truly empties the override layer:
a lookup after setting an override and clearing behaves exactly like a
lookup after clearing alone; and all three command handlers clear the
override layer at their start (cli.py lines 89, 135, 253), so every
handler result is independent of whatever override layer the previous
invocation left in the shared config. -/
theorem C9_clear_overriden :
    ∀ (c : Config) (k : ConfigKey) (v : String) (req : Bool)
      (ov ov' f : ConfigKey → Option String) (norm : String → String)
      (a m all_ lss med pd nt s pf pj pr : Bool) (u : Nat)
      (rr pp : Option String) (fs : ScanFS),
    Config.get ((Config._set c k v true).clear_overriden) k req
        = Config.get c.clear_overriden k req
    ∧ clean { overriden := ov, cachedConfig := f } a m
        = clean { overriden := ov', cachedConfig := f } a m
    ∧ upload norm { overriden := ov, cachedConfig := f } all_ lss med pd nt rr pp
        = upload norm { overriden := ov', cachedConfig := f } all_ lss med pd nt rr pp
    ∧ preview_thumbnails norm { overriden := ov, cachedConfig := f } s pf pj pr u pp fs
        = preview_thumbnails norm { overriden := ov', cachedConfig := f } s pf pj pr u pp fs := by
  intro c k v req ov ov' f norm a m all_ lss med pd nt s pf pj pr u rr pp fs
  exact ⟨rfl, rfl, rfl, rfl⟩

/-- Claim C10.  `get(key, required=True)` raises the missing-required
error not only when the key is absent from both layers but whenever the
file-layer value is falsy — in particular when it is the empty string —
because the check `if required is True and not value` (config.py line 103)
uses Python truthiness. -/
theorem C10_empty_string_required :
    ∀ (c : Config) (k : ConfigKey),
    c.overriden k = none →
    pyTruthy (c.cachedConfig k) = false →
    Config.get c k true = Except.error PrmError.missingRequiredConfig := by
  intro c k hov hfalsy
  simp [Config.get, Config._get, hov, hfalsy]

/-- Claim C10, witness: a file layer resolving `rclone_remote` to the
empty string makes the required lookup fail. -/
theorem C10_empty_string_required_witness :
    Config.get cfgEmptyStr ConfigKey.RCLONE_REMOTE true
      = Except.error PrmError.missingRequiredConfig :=
  C10_empty_string_required cfgEmptyStr ConfigKey.RCLONE_REMOTE rfl rfl

end PRM
